import Mathlib

/-!
Shallow embedding of src/plmem.c, a platform driver exposing a physical
memory region as a character device.

External collaborators (the chrdev identity allocator, cdev table, device
registry, devm allocator, virtual-memory mapper) are modelled explicitly:
their outcomes are supplied by an `Env` oracle and their visible state is
threaded through a `Sys` record, while the driver code itself is
transliterated from plmem.c.
-/

/-- `NUMBER_OF_CDEV` from plmem.c line 17. -/
def NUMBER_OF_CDEV : Nat := 1

/-- `DRIVER_CLASS_NAME` from plmem.c line 15. -/
def DRIVER_CLASS_NAME : String := "plmem"

/-- `enum plmem_mode` from plmem.c line 19. -/
inductive PlmemMode where
  | noncached
  | writecombine
  | cached
deriving DecidableEq, Repr

/-- `struct plmem_data` (plmem.c lines 21-28); the `dev` collaborator
pointer and the embedded `cdev_command` header hold no driver state of
their own and are represented by the threading in `Sys`. -/
structure PlmemData where
  mem_start : Nat
  mem_size : Nat
  devt : Nat
  mmap_mode : PlmemMode
deriving DecidableEq, Repr

/-- State of the system-wide character-device identity allocator
(`alloc_chrdev_region` / `unregister_chrdev_region`): the multiset of
currently registered dev_t identities, kept as a list. -/
structure ChrdevAlloc where
  allocated : List Nat
deriving DecidableEq, Repr

/-- Registering the contiguous identity range `[devt, devt+count)`. -/
def allocRegion (st : ChrdevAlloc) (devt count : Nat) : ChrdevAlloc :=
  { allocated := st.allocated ++ (List.range count).map (fun i => devt + i) }

/-- `unregister_chrdev_region(from, count)`: releases every identity in
`[from, from+count)`. -/
def unregisterRegion (st : ChrdevAlloc) (fromDevt count : Nat) : ChrdevAlloc :=
  { allocated :=
      st.allocated.filter (fun d => decide (d < fromDevt) || decide (fromDevt + count ≤ d)) }

/-- Externally visible collaborator state: the identity allocator, the
visible device nodes published through `device_create` (identity and
display label), and the cdev handlers registered through `cdev_add`
(by identity). -/
structure Sys where
  alloc : ChrdevAlloc
  nodes : List (Nat × String)
  cdevs : List Nat
deriving DecidableEq, Repr

/-- Oracle for collaborator outcomes during one probe:
`allocRet`/`allocDevt` model `alloc_chrdev_region` (return code, and the
dev_t written on success), `cdevAddRet` models `cdev_add`,
`deviceCreate` models `device_create` (`IS_ERR`/`PTR_ERR`), and
`kzallocOk` models `devm_kzalloc`. -/
structure Env where
  kzallocOk : Bool
  allocRet : Int
  allocDevt : Nat
  cdevAddRet : Int
  deviceCreate : Except Int Unit
deriving Repr

/-- `plmem_create_cdev` (plmem.c lines 78-112), the publish step.
Returns the C return value together with the updated `plmem_data` and
collaborator state. On `cdev_add` or `device_create` failure the code
jumps to `failed_cdev`/`failed_device_create` and calls
`unregister_chrdev_region(devt, NUMBER_OF_CDEV)`; note that the
`device_create` failure path performs no `cdev_del`, exactly as in the
source. -/
def plmem_create_cdev (env : Env) (sys : Sys) (data : PlmemData) (label : String) :
    Int × PlmemData × Sys :=
  if env.allocRet < 0 then
    (env.allocRet, data, sys)
  else
    let devt := env.allocDevt
    let sys1 : Sys := { sys with alloc := allocRegion sys.alloc devt NUMBER_OF_CDEV }
    let data1 : PlmemData := { data with devt := devt }
    if env.cdevAddRet ≠ 0 then
      (env.cdevAddRet, data1,
        { sys1 with alloc := unregisterRegion sys1.alloc devt NUMBER_OF_CDEV })
    else
      let sys2 : Sys := { sys1 with cdevs := sys1.cdevs ++ [devt] }
      match env.deviceCreate with
      | Except.error e =>
          (e, data1, { sys2 with alloc := unregisterRegion sys2.alloc devt NUMBER_OF_CDEV })
      | Except.ok _ =>
          (0, data1, { sys2 with nodes := sys2.nodes ++ [(devt, label)] })

/-- `plmem_remove` (plmem.c lines 160-168): destroys the visible nodes
`devt .. devt+NUMBER_OF_CDEV-1` and then calls
`unregister_chrdev_region(data->devt, data->devt + NUMBER_OF_CDEV - 1)` —
the second argument, a count, is transliterated exactly as written in the
source. -/
def plmem_remove (sys : Sys) (data : PlmemData) : Sys :=
  let nodes := sys.nodes.filter
    (fun p => decide (p.1 < data.devt) || decide (data.devt + NUMBER_OF_CDEV ≤ p.1))
  { sys with nodes := nodes,
             alloc := unregisterRegion sys.alloc data.devt (data.devt + NUMBER_OF_CDEV - 1) }

/-- Firmware description of one hardware node, as consumed by
`plmem_probe`: the IORESOURCE_MEM record (start and end address), the
compatibility tag set, and the optional `topic,mem-type` and `label`
string properties. -/
structure NodeDesc where
  mem_res : Option (Nat × Nat)
  compatible : List String
  mem_type : Option String
  label : Option String
deriving DecidableEq, Repr

/-- Outcome of one probe: either the C return value together with the
`plmem_data` record (when one was allocated), the collaborator state and
the diagnostics logged, or a crash — `plmem_probe` dereferences the
result of `platform_get_resource` without a check, so a node with no
IORESOURCE_MEM makes it fault; the crash outcome carries the untouched
collaborator state at the faulting point. -/
inductive ProbeOutcome where
  | ret (code : Int) (data : Option PlmemData) (sys : Sys) (log : List String)
  | crash (sys : Sys)
deriving DecidableEq, Repr

/-- Tail of `plmem_probe` after the cache mode is settled (plmem.c lines
151-157): resolve `label` (defaulting to "plmem" with a diagnostic when
the property is absent) and call `plmem_create_cdev`. -/
def probeFinish (env : Env) (sys : Sys) (node : NodeDesc)
    (mem_start mem_size : Nat) (mode : PlmemMode) : ProbeOutcome :=
  let label := node.label.getD "plmem"
  let log : List String :=
    match node.label with
    | some _ => []
    | none => ["No label, using default: " ++ label]
  let data : PlmemData :=
    { mem_start := mem_start, mem_size := mem_size, devt := 0, mmap_mode := mode }
  let r := plmem_create_cdev env sys data label
  ProbeOutcome.ret r.1 (some r.2.1) r.2.2 log

/-- `plmem_probe` (plmem.c lines 114-158). Faithful to the source:
`platform_get_resource` is dereferenced without a check (crash when
absent); the default mode comes from the `topic,iotester` compatibility
test; a present `topic,mem-type` property overrides it or, for any other
value, aborts the probe with -EINVAL (22) reporting the offending value;
a missing `label` is a logged non-fatal diagnostic. -/
def plmem_probe (env : Env) (sys : Sys) (node : NodeDesc) : ProbeOutcome :=
  if env.kzallocOk = false then
    ProbeOutcome.ret (-12) none sys []
  else
    match node.mem_res with
    | none => ProbeOutcome.crash sys
    | some res =>
      let mem_start := res.1
      let mem_size := res.2 + 1 - res.1
      let mode0 : PlmemMode :=
        if node.compatible.contains "topic,iotester" then PlmemMode.noncached
        else PlmemMode.writecombine
      match node.mem_type with
      | some mem_type =>
          if mem_type = "writecombine" then
            probeFinish env sys node mem_start mem_size PlmemMode.writecombine
          else if mem_type = "cached" then
            probeFinish env sys node mem_start mem_size PlmemMode.cached
          else if mem_type = "noncached" then
            probeFinish env sys node mem_start mem_size PlmemMode.noncached
          else
            ProbeOutcome.ret (-22) none sys ["Invalid mem-type: " ++ mem_type]
      | none => probeFinish env sys node mem_start mem_size mode0

/-- The `plmem_data` carried by a probe outcome, when one exists. -/
def ProbeOutcome.dataOf : ProbeOutcome → Option PlmemData
  | ProbeOutcome.ret _ d _ _ => d
  | ProbeOutcome.crash _ => none

/-- The resolved cache mode carried by a probe outcome. -/
def ProbeOutcome.modeOf (o : ProbeOutcome) : Option PlmemMode :=
  o.dataOf.map PlmemData.mmap_mode

/-- The C return code of a probe, when the probe returned at all. -/
def ProbeOutcome.codeOf : ProbeOutcome → Option Int
  | ProbeOutcome.ret c _ _ _ => some c
  | ProbeOutcome.crash _ => none

/-- The collaborator state after a probe. -/
def ProbeOutcome.sysOf : ProbeOutcome → Sys
  | ProbeOutcome.ret _ _ s _ => s
  | ProbeOutcome.crash s => s

/-- The diagnostics logged by a probe. -/
def ProbeOutcome.logOf : ProbeOutcome → List String
  | ProbeOutcome.ret _ _ _ l => l
  | ProbeOutcome.crash _ => []

/-! File operations (plmem.c lines 32-76). The page protection of a VMA
is modelled as a free term algebra: an opaque architecture default plus
the two attribute transformers the driver may apply, so that leaving the
field untouched is distinguishable from every transformation. -/

/-- A `pgprot_t` value: the default protection handed in by the kernel,
or a transformed one. -/
inductive PageProt where
  | base (v : Nat)
  | noncachedOf (p : PageProt)
  | writecombineOf (p : PageProt)
deriving DecidableEq, Repr

/-- `pgprot_noncached`: mark the pages cacheability-disabled. -/
def pgprot_noncached (p : PageProt) : PageProt := PageProt.noncachedOf p

/-- `pgprot_writecombine`: mark the pages write-combined. -/
def pgprot_writecombine (p : PageProt) : PageProt := PageProt.writecombineOf p

/-- The part of `struct vm_area_struct` the driver touches. -/
structure Vma where
  vm_page_prot : PageProt
deriving DecidableEq, Repr

/-- The part of `struct file` the driver touches. -/
structure Filp where
  private_data : Option PlmemData
deriving DecidableEq, Repr

/-- The part of `struct inode` the driver touches: `container_of` on
`i_cdev` recovers the owning instance record. -/
structure Inode where
  i_cdev_owner : PlmemData
deriving DecidableEq, Repr

/-- The `switch (data->mmap_mode)` block of `plmem_mmap` (plmem.c lines
36-45): adjust the page protection; the `default` arm (which covers
`cached`) leaves it untouched. -/
def plmem_mmap_prot (data : PlmemData) (vma : Vma) : Vma :=
  match data.mmap_mode with
  | PlmemMode.noncached => { vma with vm_page_prot := pgprot_noncached vma.vm_page_prot }
  | PlmemMode.writecombine => { vma with vm_page_prot := pgprot_writecombine vma.vm_page_prot }
  | PlmemMode.cached => vma

/-- `plmem_mmap` (plmem.c lines 32-47): adjust the protection, then
delegate to `vm_iomap_memory(vma, data->mem_start, data->mem_size)` —
the collaborator is a parameter — and return its result unchanged,
together with the instance record and the vma as the collaborator saw
it. -/
def plmem_mmap (vm_iomap_memory : Vma → Nat → Nat → Int)
    (data : PlmemData) (vma : Vma) : Int × PlmemData × Vma :=
  let vma1 := plmem_mmap_prot data vma
  (vm_iomap_memory vma1 data.mem_start data.mem_size, data, vma1)

/-- `plmem_ioctl` (plmem.c lines 49-53): every request returns -ENOTTY
(25). -/
def plmem_ioctl (filp : Filp) (_cmd : Nat) (_arg : Nat) : Int × Filp :=
  (-25, filp)

/-- `plmem_open` (plmem.c lines 55-63): attach the owning instance
record to the file as session context and return 0. -/
def plmem_open (inode : Inode) (filp : Filp) : Int × Inode × Filp :=
  (0, inode, { filp with private_data := some inode.i_cdev_owner })

/-- `plmem_release` (plmem.c lines 65-68): do nothing and return 0. -/
def plmem_release (inode : Inode) (filp : Filp) : Int × Inode × Filp :=
  (0, inode, filp)

/-- One post-publication file operation on a published instance, for the
frame property: the mmap operation carries the collaborator and the
vma of the caller, ioctl carries its request. -/
inductive FileOp where
  | doOpen
  | doMmap (vm_iomap_memory : Vma → Nat → Nat → Int) (vma : Vma)
  | doIoctl (cmd : Nat) (arg : Nat)
  | doRelease

/-- Run one file operation against the instance record and one session
file. `open`/`release` resolve the instance through the inode of the
published node; `mmap` dereferences `filp->private_data`, which aliases
the one instance record, so it acts on the current record, and running
it on a file that was never opened is undefined (`none`). The instance
record in the pair is the one the operations may reach through their
pointers; each operation writes back the record it returns. -/
def runOp (st : PlmemData × Filp) : FileOp → Option (PlmemData × Filp)
  | FileOp.doOpen =>
      let r := plmem_open { i_cdev_owner := st.1 } st.2
      some (r.2.1.i_cdev_owner, r.2.2)
  | FileOp.doMmap f vma =>
      match st.2.private_data with
      | some _ =>
          let r := plmem_mmap f st.1 vma
          some (r.2.1, st.2)
      | none => none
  | FileOp.doIoctl cmd arg =>
      let r := plmem_ioctl st.2 cmd arg
      some (st.1, r.2)
  | FileOp.doRelease =>
      let r := plmem_release { i_cdev_owner := st.1 } st.2
      some (r.2.1.i_cdev_owner, r.2.2)

/-- Run a sequence of file operations, stopping at undefined behavior. -/
def runOps (st : PlmemData × Filp) : List FileOp → Option (PlmemData × Filp)
  | [] => some st
  | op :: ops =>
      match runOp st op with
      | some st1 => runOps st1 ops
      | none => none

/-! Helper lemmas shared by the claim theorems. -/

/-- The publish step never changes the resolved cache mode of the
instance record it is given. -/
theorem plmem_create_cdev_mode (env : Env) (sys : Sys) (data : PlmemData) (label : String) :
    (plmem_create_cdev env sys data label).2.1.mmap_mode = data.mmap_mode := by
  unfold plmem_create_cdev
  split
  · rfl
  · split
    · rfl
    · split <;> rfl

/-- The probe tail always reports the cache mode it was given, whatever
the publish step does. -/
theorem probeFinish_mode (env : Env) (sys : Sys) (node : NodeDesc)
    (ms sz : Nat) (mode : PlmemMode) :
    (probeFinish env sys node ms sz mode).modeOf = some mode := by
  unfold probeFinish ProbeOutcome.modeOf ProbeOutcome.dataOf
  simp [plmem_create_cdev_mode]

/-- When every collaborator succeeds, the probe tail publishes one node
with the resolved label, allocates one identity range, registers one
cdev handler and returns 0, logging a diagnostic exactly when `label`
was absent. -/
theorem probeFinish_success (env : Env) (sys : Sys) (node : NodeDesc)
    (ms sz : Nat) (mode : PlmemMode)
    (halloc : ¬ env.allocRet < 0) (hcdev : env.cdevAddRet = 0)
    (hdc : env.deviceCreate = Except.ok ()) :
    probeFinish env sys node ms sz mode =
      ProbeOutcome.ret 0
        (some { mem_start := ms, mem_size := sz, devt := env.allocDevt, mmap_mode := mode })
        { alloc := allocRegion sys.alloc env.allocDevt NUMBER_OF_CDEV,
          nodes := sys.nodes ++ [(env.allocDevt, node.label.getD "plmem")],
          cdevs := sys.cdevs ++ [env.allocDevt] }
        (match node.label with
         | some _ => []
         | none => ["No label, using default: plmem"]) := by
  cases hl : node.label with
  | some l => simp [probeFinish, plmem_create_cdev, if_neg halloc, hcdev, hdc, hl]
  | none => simp [probeFinish, plmem_create_cdev, if_neg halloc, hcdev, hdc, hl]

/-- Releasing the very identity range just allocated restores the
allocator, provided the range was fresh. -/
theorem alloc_unregister_cancel (st : ChrdevAlloc) (devt : Nat)
    (h : devt ∉ st.allocated) :
    unregisterRegion (allocRegion st devt NUMBER_OF_CDEV) devt NUMBER_OF_CDEV = st := by
  cases st with
  | mk l =>
    simp only [unregisterRegion, allocRegion, NUMBER_OF_CDEV]
    congr 1
    rw [List.filter_append]
    have h1 : ∀ d ∈ l, (decide (d < devt) || decide (devt + 1 ≤ d)) = true := by
      intro d hd
      have hne : d ≠ devt := fun e => h (e ▸ hd)
      simp only [Bool.or_eq_true, decide_eq_true_eq]
      omega
    rw [List.filter_eq_self.mpr h1]
    simp

/-- A single file operation leaves the instance record untouched. -/
theorem runOp_preserves_data (st : PlmemData × Filp) (op : FileOp)
    (st1 : PlmemData × Filp) (h : runOp st op = some st1) : st1.1 = st.1 := by
  cases op with
  | doOpen =>
      simp only [runOp, plmem_open, Option.some.injEq] at h
      rw [← h]
  | doMmap f vma =>
      cases hp : st.2.private_data with
      | some d =>
          simp only [runOp, hp, plmem_mmap, Option.some.injEq] at h
          rw [← h]
      | none => simp [runOp, hp] at h
  | doIoctl cmd arg =>
      simp only [runOp, plmem_ioctl, Option.some.injEq] at h
      rw [← h]
  | doRelease =>
      simp only [runOp, plmem_release, Option.some.injEq] at h
      rw [← h]

/-- A sequence of file operations leaves the instance record
untouched. -/
theorem runOps_preserves_data (ops : List FileOp) :
    ∀ st st1, runOps st ops = some st1 → st1.1 = st.1 := by
  induction ops with
  | nil =>
      intro st st1 h
      simp only [runOps, Option.some.injEq] at h
      rw [← h]
  | cons op ops ih =>
      intro st st1 h
      simp only [runOps] at h
      cases hs : runOp st op with
      | none => rw [hs] at h; cases h
      | some stm =>
          rw [hs] at h
          exact (ih stm st1 h).trans (runOp_preserves_data st op stm hs)

/-! Claim theorems. -/

/-- Claim C4: when the `topic,mem-type` property is present with value
"writecombine", "cached" or "noncached", the probe resolves the cache
mode to `writecombine`, `cached` or `noncached` respectively, whatever
the compatibility-tag set (in particular the tester tag) made the
default. -/
theorem C4_explicit_mem_type_overrides (env : Env) (sys : Sys) (node : NodeDesc)
    (r : Nat × Nat) (mt : String) (m : PlmemMode)
    (hres : node.mem_res = some r) (hk : env.kzallocOk = true)
    (hmt : node.mem_type = some mt)
    (hmap : (mt = "writecombine" ∧ m = PlmemMode.writecombine) ∨
            (mt = "cached" ∧ m = PlmemMode.cached) ∨
            (mt = "noncached" ∧ m = PlmemMode.noncached)) :
    (plmem_probe env sys node).modeOf = some m := by
  rcases hmap with ⟨h1, h2⟩ | ⟨h1, h2⟩ | ⟨h1, h2⟩ <;> subst h1 <;> subst h2 <;>
    simp [plmem_probe, hk, hres, hmt, probeFinish_mode]

/-- Witness for C4 at scenario C of the spec: tester tag present and
`mem-type = "cached"` resolve to `cached`. -/
theorem C4_witness :
    (plmem_probe ⟨true, 0, 5, 0, Except.ok ()⟩ ⟨⟨[]⟩, [], []⟩
        ⟨some (4096, 8191), ["topic,iotester"], some "cached", some "mem"⟩).modeOf =
      some PlmemMode.cached :=
  C4_explicit_mem_type_overrides _ _ _ (4096, 8191) "cached" PlmemMode.cached
    rfl rfl rfl (Or.inr (Or.inl ⟨rfl, rfl⟩))

/-- Claim C5: a present `topic,mem-type` property with any other value
makes the probe return -EINVAL with a diagnostic carrying the offending
value, allocating no identity and publishing no node (the collaborator
state is returned untouched) and creating no instance record. -/
theorem C5_invalid_mem_type_rejected (env : Env) (sys : Sys) (node : NodeDesc)
    (r : Nat × Nat) (mt : String)
    (hres : node.mem_res = some r) (hk : env.kzallocOk = true)
    (hmt : node.mem_type = some mt)
    (h1 : mt ≠ "writecombine") (h2 : mt ≠ "cached") (h3 : mt ≠ "noncached") :
    plmem_probe env sys node =
      ProbeOutcome.ret (-22) none sys ["Invalid mem-type: " ++ mt] := by
  simp [plmem_probe, hk, hres, hmt, h1, h2, h3]

/-- Witness for C5 at scenario D of the spec: `mem-type = "bogus"`. -/
theorem C5_witness :
    plmem_probe ⟨true, 0, 5, 0, Except.ok ()⟩ ⟨⟨[]⟩, [], []⟩
        ⟨some (4096, 8191), [], some "bogus", none⟩ =
      ProbeOutcome.ret (-22) none ⟨⟨[]⟩, [], []⟩ ["Invalid mem-type: bogus"] :=
  C5_invalid_mem_type_rejected _ _ _ (4096, 8191) "bogus" rfl rfl rfl
    (by decide) (by decide) (by decide)

/-- Claim C6: with no `topic,mem-type` property, the resolved cache mode
is `noncached` when the compatibility set contains "topic,iotester" and
`writecombine` otherwise. -/
theorem C6_default_mode (env : Env) (sys : Sys) (node : NodeDesc) (r : Nat × Nat)
    (hres : node.mem_res = some r) (hk : env.kzallocOk = true)
    (hmt : node.mem_type = none) :
    (plmem_probe env sys node).modeOf =
      some (if node.compatible.contains "topic,iotester"
            then PlmemMode.noncached else PlmemMode.writecombine) := by
  simp only [plmem_probe, hk, Bool.true_eq_false, if_false, hres, hmt]
  split <;> simp [probeFinish_mode]

/-- Witness for C6 at scenarios A and B of the spec: the tester tag
gives `noncached`, its absence gives `writecombine`. -/
theorem C6_witness :
    (plmem_probe ⟨true, 0, 5, 0, Except.ok ()⟩ ⟨⟨[]⟩, [], []⟩
        ⟨some (4096, 8191), ["topic,iotester"], none, none⟩).modeOf =
      some PlmemMode.noncached ∧
    (plmem_probe ⟨true, 0, 5, 0, Except.ok ()⟩ ⟨⟨[]⟩, [], []⟩
        ⟨some (4096, 8191), ["acme,other"], none, none⟩).modeOf =
      some PlmemMode.writecombine :=
  ⟨C6_default_mode _ _ _ (4096, 8191) rfl rfl rfl,
   C6_default_mode _ _ _ (4096, 8191) rfl rfl rfl⟩

/-- Claim C7: every map call adjusts the destination page attribute
exactly by the instance cache mode — `noncached` applies
`pgprot_noncached`, `writecombine` applies `pgprot_writecombine`,
`cached` leaves the attribute untouched — then delegates to the
virtual-memory collaborator with that adjusted destination, the
physical base and the full length, and returns the collaborator result
unchanged. -/
theorem C7_mmap_attribute_and_delegation (f : Vma → Nat → Nat → Int)
    (data : PlmemData) (vma : Vma) :
    plmem_mmap f data vma =
      (f (plmem_mmap_prot data vma) data.mem_start data.mem_size, data,
        plmem_mmap_prot data vma) ∧
    (plmem_mmap_prot data vma).vm_page_prot =
      (match data.mmap_mode with
       | PlmemMode.noncached => pgprot_noncached vma.vm_page_prot
       | PlmemMode.writecombine => pgprot_writecombine vma.vm_page_prot
       | PlmemMode.cached => vma.vm_page_prot) := by
  refine ⟨rfl, ?_⟩
  cases h : data.mmap_mode <;> simp [plmem_mmap_prot, h]

/-- Claim C9: no sequence of open, map, ioctl and close calls changes
the instance record: physical base, length, cache mode and assigned
identity all survive unchanged. -/
theorem C9_region_fields_fixed (data : PlmemData) (filp : Filp) (ops : List FileOp)
    (data1 : PlmemData) (filp1 : Filp)
    (h : runOps (data, filp) ops = some (data1, filp1)) :
    data1.mem_start = data.mem_start ∧ data1.mem_size = data.mem_size ∧
    data1.mmap_mode = data.mmap_mode ∧ data1.devt = data.devt := by
  have h1 : data1 = data := runOps_preserves_data ops (data, filp) (data1, filp1) h
  subst h1
  exact ⟨rfl, rfl, rfl, rfl⟩

/-- Witness for C9: an open, a map, an ioctl and a close on a concrete
published instance leave its record intact. -/
theorem C9_witness :
    runOps ((⟨4096, 4096, 7, PlmemMode.noncached⟩ : PlmemData), (⟨none⟩ : Filp))
        [FileOp.doOpen, FileOp.doMmap (fun _ _ _ => 0) ⟨PageProt.base 0⟩,
          FileOp.doIoctl 3 4, FileOp.doRelease] =
      some (⟨4096, 4096, 7, PlmemMode.noncached⟩,
        ⟨some ⟨4096, 4096, 7, PlmemMode.noncached⟩⟩) ∧
    (⟨4096, 4096, 7, PlmemMode.noncached⟩ : PlmemData).mem_start = 4096 ∧
    (⟨4096, 4096, 7, PlmemMode.noncached⟩ : PlmemData).mmap_mode = PlmemMode.noncached := by
  have h := C9_region_fields_fixed ⟨4096, 4096, 7, PlmemMode.noncached⟩ ⟨none⟩
      [FileOp.doOpen, FileOp.doMmap (fun _ _ _ => 0) ⟨PageProt.base 0⟩,
        FileOp.doIoctl 3 4, FileOp.doRelease]
      ⟨4096, 4096, 7, PlmemMode.noncached⟩ ⟨some ⟨4096, 4096, 7, PlmemMode.noncached⟩⟩ rfl
  exact ⟨rfl, h.1, h.2.2.1⟩

/-- Claim C10: open always returns 0 after attaching the owning
instance record as the session context, and close always returns 0
doing nothing; neither has a failure path. -/
theorem C10_open_release_always_succeed (inode : Inode) (filp : Filp) :
    plmem_open inode filp =
      (0, inode, { filp with private_data := some inode.i_cdev_owner }) ∧
    plmem_release inode filp = (0, inode, filp) :=
  ⟨rfl, rfl⟩

/-- Counterexample to claim C2 as stated: on a node with no
IORESOURCE_MEM the probe does not return a resource error — it
dereferences the absent resource and faults. -/
theorem C2_counterexample :
    plmem_probe ⟨true, 0, 5, 0, Except.ok ()⟩ ⟨⟨[]⟩, [], []⟩
        ⟨none, [], none, none⟩ =
      ProbeOutcome.crash ⟨⟨[]⟩, [], []⟩ ∧
    ¬ ∃ code data sys log,
        plmem_probe ⟨true, 0, 5, 0, Except.ok ()⟩ ⟨⟨[]⟩, [], []⟩
            ⟨none, [], none, none⟩ =
          ProbeOutcome.ret code data sys log := by
  refine ⟨rfl, ?_⟩
  rintro ⟨code, data, sys, log, h⟩
  simp [plmem_probe] at h

/-- Claim C2 amended: absence of the mandatory memory resource is a
precondition violation, not a returned error — the probe performs no
check and faults dereferencing the missing resource; at that point no
identity has been allocated and no node published (the collaborator
state is untouched). -/
theorem C2_amended_missing_resource_faults (env : Env) (sys : Sys) (node : NodeDesc)
    (hk : env.kzallocOk = true) (hres : node.mem_res = none) :
    plmem_probe env sys node = ProbeOutcome.crash sys := by
  simp [plmem_probe, hk, hres]

/-- Witness for the amended C2 on a concrete resourceless node. -/
theorem C2_witness :
    plmem_probe ⟨true, 0, 9, 0, Except.ok ()⟩ ⟨⟨[11]⟩, [(2, "x")], [3]⟩
        ⟨none, ["topic,plmem"], none, some "lbl"⟩ =
      ProbeOutcome.crash ⟨⟨[11]⟩, [(2, "x")], [3]⟩ :=
  C2_amended_missing_resource_faults _ _ _ rfl rfl

/-- Counterexample to claim C3 as stated: when `device_create` fails,
the cdev handler registered just before is never unregistered — starting
with no registered handlers, the failed publish leaves one behind. -/
theorem C3_counterexample :
    (plmem_create_cdev ⟨true, 0, 5, 0, Except.error (-17)⟩ ⟨⟨[]⟩, [], []⟩
        ⟨4096, 4096, 0, PlmemMode.writecombine⟩ "plmem").2.2.cdevs = [5] ∧
    ([5] : List Nat) ≠ ([] : List Nat) :=
  ⟨rfl, by decide⟩

/-- Claim C3 amended: when the visible-node creation step fails, the
publish step returns that error, releases the allocated identity (the
allocator is restored, given the identity handed out was fresh) and
publishes no node, but the cdev handler registered before the failing
step is not unregistered and remains. -/
theorem C3_amended_rollback (env : Env) (sys : Sys) (data : PlmemData)
    (label : String) (e : Int)
    (halloc : ¬ env.allocRet < 0) (hcdev : env.cdevAddRet = 0)
    (hdc : env.deviceCreate = Except.error e)
    (hfresh : env.allocDevt ∉ sys.alloc.allocated) :
    plmem_create_cdev env sys data label =
      (e, { data with devt := env.allocDevt },
        { sys with cdevs := sys.cdevs ++ [env.allocDevt] }) := by
  simp [plmem_create_cdev, if_neg halloc, hcdev, hdc,
    alloc_unregister_cancel sys.alloc env.allocDevt hfresh]

/-- Witness for the amended C3 at a concrete failed publish. -/
theorem C3_witness :
    plmem_create_cdev ⟨true, 0, 5, 0, Except.error (-17)⟩ ⟨⟨[9]⟩, [(9, "o")], [9]⟩
        ⟨4096, 4096, 0, PlmemMode.cached⟩ "plmem" =
      (-17, ⟨4096, 4096, 5, PlmemMode.cached⟩,
        ⟨⟨[9]⟩, [(9, "o")], [9, 5]⟩) :=
  C3_amended_rollback _ _ _ "plmem" (-17) (by decide) rfl rfl (by decide)

/-- Claim C1 fails on the code: `plmem_remove` passes
`data->devt + NUMBER_OF_CDEV - 1` — a dev_t, not a count — as the count
argument of `unregister_chrdev_region`, while the matching allocation
(and the rollback inside `plmem_create_cdev` itself) uses the count
`NUMBER_OF_CDEV`. Concretely: publish is handed identity 5 while
identity 6 is held by someone else; publish succeeds allocating exactly
5, and the immediately following remove releases every identity in
`[5, 10)`, wiping out the foreign identity 6 — the round trip shrinks
the allocator from holding 6 to holding nothing instead of restoring
it. -/
theorem C1_code_bug_remove_overreleases :
    (plmem_create_cdev ⟨true, 0, 5, 0, Except.ok ()⟩ ⟨⟨[6]⟩, [], []⟩
        ⟨4096, 4096, 0, PlmemMode.writecombine⟩ "plmem").1 = 0 ∧
    (plmem_create_cdev ⟨true, 0, 5, 0, Except.ok ()⟩ ⟨⟨[6]⟩, [], []⟩
        ⟨4096, 4096, 0, PlmemMode.writecombine⟩ "plmem").2.2.alloc.allocated = [6, 5] ∧
    (plmem_remove
        (plmem_create_cdev ⟨true, 0, 5, 0, Except.ok ()⟩ ⟨⟨[6]⟩, [], []⟩
          ⟨4096, 4096, 0, PlmemMode.writecombine⟩ "plmem").2.2
        (plmem_create_cdev ⟨true, 0, 5, 0, Except.ok ()⟩ ⟨⟨[6]⟩, [], []⟩
          ⟨4096, 4096, 0, PlmemMode.writecombine⟩ "plmem").2.1).alloc.allocated =
      ([] : List Nat) ∧
    ([] : List Nat) ≠ [6] := by
  refine ⟨rfl, rfl, rfl, by decide⟩

/-- Claim C8: on a successful probe, the published node carries the
`label` property value when present and the fixed default "plmem"
otherwise; the missing-label case additionally logs a non-fatal
diagnostic while the probe still returns 0 and publishes the node. -/
theorem C8_label_resolution (env : Env) (sys : Sys) (node : NodeDesc) (r : Nat × Nat)
    (hres : node.mem_res = some r) (hk : env.kzallocOk = true)
    (hmt : node.mem_type = none ∨ node.mem_type = some "writecombine" ∨
           node.mem_type = some "cached" ∨ node.mem_type = some "noncached")
    (halloc : ¬ env.allocRet < 0) (hcdev : env.cdevAddRet = 0)
    (hdc : env.deviceCreate = Except.ok ()) :
    (plmem_probe env sys node).codeOf = some 0 ∧
    (plmem_probe env sys node).sysOf.nodes =
      sys.nodes ++ [(env.allocDevt, node.label.getD "plmem")] ∧
    (plmem_probe env sys node).logOf =
      (match node.label with
       | some _ => []
       | none => ["No label, using default: plmem"]) := by
  have hfin := fun mode =>
    probeFinish_success env sys node r.1 (r.2 + 1 - r.1) mode halloc hcdev hdc
  rcases hmt with hmt | hmt | hmt | hmt <;>
    simp [plmem_probe, hk, hres, hmt, hfin, ProbeOutcome.codeOf,
      ProbeOutcome.sysOf, ProbeOutcome.logOf]

/-- Witness for C8 on a concrete node with no `label` property: the
default label is published and the diagnostic logged. -/
theorem C8_witness :
    (plmem_probe ⟨true, 0, 7, 0, Except.ok ()⟩ ⟨⟨[]⟩, [], []⟩
        ⟨some (4096, 8191), [], none, none⟩).codeOf = some 0 ∧
    (plmem_probe ⟨true, 0, 7, 0, Except.ok ()⟩ ⟨⟨[]⟩, [], []⟩
        ⟨some (4096, 8191), [], none, none⟩).sysOf.nodes = [(7, "plmem")] ∧
    (plmem_probe ⟨true, 0, 7, 0, Except.ok ()⟩ ⟨⟨[]⟩, [], []⟩
        ⟨some (4096, 8191), [], none, none⟩).logOf =
      ["No label, using default: plmem"] :=
  C8_label_resolution ⟨true, 0, 7, 0, Except.ok ()⟩ ⟨⟨[]⟩, [], []⟩
    ⟨some (4096, 8191), [], none, none⟩ (4096, 8191) rfl rfl (Or.inl rfl)
    (by decide) rfl rfl
